import Mathlib

set_option autoImplicit false
set_option maxRecDepth 100000
set_option linter.unusedVariables false
set_option linter.unnecessarySeqFocus false

/-!
Verification of the resume-suggestion engine and the AI gateway routes of the
`miracle` repository.

The first half of this file is a shallow embedding, translated from the
TypeScript sources:

  * `src/app/editor/components/AISuggestionsPanel.tsx`
      (`generateRealTimeSuggestions`, `getRoleSpecificKeywords`,
       `getSectionSpecificSuggestions`);
  * the improve-resume route (`POST` of the improve endpoint); and
  * `src/app/api/resume/[id]/route.ts` (`POST` of the analyze endpoint).

JavaScript strings are modelled as Lean `String`/`List Char`; where the code
depends on UTF-16 string length (`content.length`) we model it explicitly with
`utf16Len`.  `String.prototype.toLowerCase` is modelled as ASCII case folding
(the keyword tables and regex alternatives are all ASCII).  Regex tests of the
panel are alternations of plain words and adjacent-character patterns, which we
translate literally.  `JSON.parse` is modelled by a fuelled recursive-descent
parser of the JSON grammar; numeric literals are kept as their lexemes so that
no floating-point semantics is introduced.
-/

/-! ### Character and string helpers (JS semantics) -/

/-- ASCII lower-casing of one character, as `String.prototype.toLowerCase`
acts on the ASCII range (the only range the code's tables use). -/
def lowerChar (c : Char) : Char :=
  if 65 ≤ c.toNat && c.toNat ≤ 90 then Char.ofNat (c.toNat + 32) else c

/-- ASCII lower-casing of a character list. -/
def lowerL (l : List Char) : List Char := l.map lowerChar

/-- ASCII lower-casing of a string (`role.toLowerCase()` etc.). -/
def lowerStr (s : String) : String := ⟨lowerL s.data⟩

/-- The JavaScript `\s` / `trim` whitespace class. -/
def isJsWs (c : Char) : Bool :=
  c.toNat = 9 || c.toNat = 10 || c.toNat = 11 || c.toNat = 12 || c.toNat = 13 ||
  c.toNat = 32 || c.toNat = 160 || c.toNat = 5760 ||
  (8192 ≤ c.toNat && c.toNat ≤ 8202) ||
  c.toNat = 8232 || c.toNat = 8233 || c.toNat = 8239 || c.toNat = 8287 ||
  c.toNat = 12288 || c.toNat = 65279

/-- Does `needle` occur at the start of `hay`? -/
def prefixOfL : List Char → List Char → Bool
  | [], _ => true
  | _ :: _, [] => false
  | n :: ns, h :: hs => (n = h) && prefixOfL ns hs

/-- Does `needle` occur anywhere in `hay`?  (JS `String.prototype.includes`.) -/
def containsL (needle : List Char) : List Char → Bool
  | [] => prefixOfL needle []
  | c :: t => prefixOfL needle (c :: t) || containsL needle t

/-- Is there an adjacent pair of characters satisfying `p` then `q`?  Used to
translate the two-character regex alternatives such as `\d+%`. -/
def hasAdjacent (p q : Char → Bool) : List Char → Bool
  | [] => false
  | [_] => false
  | a :: b :: t => (p a && q b) || hasAdjacent p q (b :: t)

/-- ASCII digit test (`\d` of a non-unicode JS regex). -/
def isDigitCh (c : Char) : Bool := 48 ≤ c.toNat && c.toNat ≤ 57

/-- Case-insensitive substring test: both sides ASCII-lower-cased. -/
def containsCI (needle : String) (hay : List Char) : Bool :=
  containsL (lowerL needle.data) (lowerL hay)

/-- Number of maximal whitespace runs in a character list; the accumulator
records whether the previous character was whitespace. -/
def wsRunCount : List Char → Bool → Nat
  | [], _ => 0
  | c :: t, inRun =>
    if isJsWs c then (if inRun then wsRunCount t true else 1 + wsRunCount t true)
    else wsRunCount t false

/-- `content.split(/\s+/).length`: a JS split on a regex yields one segment per
gap between successive matches, so the length is the number of maximal
whitespace runs plus one (in particular it is `1` for the empty string and it
counts an extra empty segment for leading and for trailing whitespace). -/
def jsWordCount (s : String) : Nat := wsRunCount s.data false + 1

/-- Number of maximal non-whitespace runs: the number of whitespace-delimited
tokens in the ordinary sense.  Modelled from the spec's words ("whitespace-
delimited tokens"); used only to state spec-side properties, never by the
embedded code. -/
def tokenRunCount : List Char → Bool → Nat
  | [], _ => 0
  | c :: t, inTok =>
    if isJsWs c then tokenRunCount t false
    else (if inTok then tokenRunCount t true else 1 + tokenRunCount t true)

/-- Whitespace-delimited token count of a string (spec notion). -/
def specWhitespaceTokenCount (s : String) : Nat := tokenRunCount s.data false

/-- UTF-16 length of a character list: JS `String.prototype.length` counts
code units, so astral-plane characters count twice. -/
def utf16Len : List Char → Nat
  | [] => 0
  | c :: t => (if 65536 ≤ c.toNat then 2 else 1) + utf16Len t

/-! ### The suggestion data model (`AISuggestionsPanel.tsx`) -/

/-- `Suggestion.type`: 'content' | 'format' | 'keyword' | 'structure'
(the last constructor is named `structureKind` because `structure` is a Lean
keyword). -/
inductive SuggestionType
  | content
  | format
  | keyword
  | structureKind
deriving DecidableEq, Repr

/-- `Suggestion.priority`: 'high' | 'medium' | 'low'. -/
inductive SuggestionPriority
  | high
  | medium
  | low
deriving DecidableEq, Repr

/-- One suggestion record.  The TS field `section` is named `sectionLabel`
(`section` is a Lean keyword); all other field names follow the source. -/
structure Suggestion where
  id : String
  type : SuggestionType
  sectionLabel : String
  priority : SuggestionPriority
  title : String
  description : String
  suggestion : String
  applied : Bool
deriving DecidableEq, Repr

/-- `section || 'fallback'` on the optional section argument: JS `||` takes
the fallback when the section is absent or the empty string. -/
def jsSectionOr (sec : Option String) (fallback : String) : String :=
  match sec with
  | none => fallback
  | some s => if s = "" then fallback else s

/-- The suggestion pushed by the word-count check. -/
def wordCountSuggestion (sec : Option String) : Suggestion :=
  ⟨"word-count", .content, jsSectionOr sec "overall", .high,
   "Expand Content",
   "Your resume is too brief. Add more detailed achievements.",
   "Add 2-3 more bullet points with specific accomplishments and metrics.",
   false⟩

/-- The suggestion pushed by the quantified-achievements check. -/
def quantifySuggestion (sec : Option String) : Suggestion :=
  ⟨"quantify", .content, jsSectionOr sec "experience", .high,
   "Add Quantified Results",
   "Include specific numbers and percentages to show impact.",
   "Replace generic statements with metrics like \"Increased efficiency by 40%\" or \"Managed team of 5+\".",
   false⟩

/-- The suggestion pushed by the action-verb check. -/
def actionVerbsSuggestion (sec : Option String) : Suggestion :=
  ⟨"action-verbs", .content, jsSectionOr sec "experience", .medium,
   "Use Strong Action Verbs",
   "Start bullet points with powerful action verbs.",
   "Begin achievements with words like: Led, Architected, Optimized, Implemented, Designed.",
   false⟩

/-- The suggestion pushed by the missing-keywords check. -/
def keywordsSuggestion (role : String) (missing : List String) : Suggestion :=
  ⟨"keywords", .keyword, "skills", .high,
   "Add " ++ role ++ " Keywords",
   "Missing key terms for " ++ role ++ " positions.",
   "Consider adding: " ++ String.intercalate ", " (missing.take 5),
   false⟩

/-- The suggestion pushed by the summary-section check. -/
def summaryExpandSuggestion (role : String) : Suggestion :=
  ⟨"summary-expand", .content, "summary", .high,
   "Expand Professional Summary",
   "Your summary should be 2-3 sentences highlighting key achievements.",
   "Write a compelling summary mentioning your " ++ role ++ " experience and key accomplishments.",
   false⟩

/-- The suggestion pushed by the skills-section check. -/
def skillsFormatSuggestion : Suggestion :=
  ⟨"skills-format", .format, "skills", .medium,
   "Format Skills Section",
   "Use bullet points to organize your skills.",
   "Organize skills into categories with bullet points for better readability.",
   false⟩

/-! ### The heuristic checks -/

/-- `/\d+%|\d+\+|\$\d+|increased|improved|reduced/gi.test(content)`: a
digit immediately followed by `%` or `+`, a `$` immediately followed by a
digit, or one of the three words case-insensitively as a substring. -/
def hasQuantifiedAchievements (content : List Char) : Bool :=
  hasAdjacent isDigitCh (fun c => c = '%') content ||
  hasAdjacent isDigitCh (fun c => c = '+') content ||
  hasAdjacent (fun c => c = '$') isDigitCh content ||
  containsCI "increased" content ||
  containsCI "improved" content ||
  containsCI "reduced" content

/-- `/led|managed|developed|created|implemented|designed|optimized/gi.test(content)`. -/
def hasActionVerbs (content : List Char) : Bool :=
  containsCI "led" content ||
  containsCI "managed" content ||
  containsCI "developed" content ||
  containsCI "created" content ||
  containsCI "implemented" content ||
  containsCI "designed" content ||
  containsCI "optimized" content

/-- Result of the JS property read `keywordMap[roleKey]` followed by
`|| keywordMap['default']`.  A plain object literal inherits from
`Object.prototype`, so a key naming a prototype member yields that member — a
truthy non-array value on which the caller's `.filter` call throws. -/
inductive KeywordLookup
  | arr (ks : List String)
  | protoMember
deriving DecidableEq, Repr

/-- The own property names of `Object.prototype` that a string index can hit. -/
def objectProtoProps : List String :=
  ["constructor", "hasOwnProperty", "isPrototypeOf", "propertyIsEnumerable",
   "toLocaleString", "toString", "valueOf", "__defineGetter__",
   "__defineSetter__", "__lookupGetter__", "__lookupSetter__", "__proto__"]

/-- The default keyword profile of the table. -/
def defaultKeywordProfile : List String :=
  ["Leadership", "Problem Solving", "Communication", "Teamwork", "Project Management"]

/-- `getRoleSpecificKeywords(role, area)`: look up the lower-cased role in the
object-literal keyword table.  Own properties are the five listed entries;
a miss falls through to the `Object.prototype` members (truthy, non-array);
only a genuinely absent key gives `undefined` and hence the `||` fallback to
the default profile.  The `area` argument is ignored, as in the source. -/
def getRoleSpecificKeywords (role area : String) : KeywordLookup :=
  let roleKey := lowerStr role
  if roleKey = "software engineer" then
    .arr ["JavaScript", "Python", "React", "Node.js", "API", "Git", "Agile"]
  else if roleKey = "data scientist" then
    .arr ["Python", "R", "Machine Learning", "SQL", "Statistics", "TensorFlow"]
  else if roleKey = "research scientist" then
    .arr ["Research", "Publications", "Statistical Analysis", "Data Analysis", "Methodology"]
  else if roleKey = "product manager" then
    .arr ["Product Strategy", "Roadmap", "Stakeholder Management", "Analytics", "User Research"]
  else if roleKey = "default" then
    .arr defaultKeywordProfile
  else if objectProtoProps.contains roleKey then
    .protoMember
  else
    .arr defaultKeywordProfile

/-- `roleKeywords.filter(keyword => !content.toLowerCase().includes(keyword.toLowerCase()))`. -/
def missingRoleKeywords (ks : List String) (content : String) : List String :=
  ks.filter (fun kw => !(containsL (lowerL kw.data) (lowerL content.data)))

/-- `getSectionSpecificSuggestions(section, content, role)`. -/
def getSectionSpecificSuggestions (sectionArg content role : String) : List Suggestion :=
  (if (sectionArg = "summary" ∨ sectionArg = "professional-summary") ∧
      utf16Len content.data < 100 then
    [summaryExpandSuggestion role]
  else []) ++
  (if (sectionArg = "skills" ∨ sectionArg = "technical-skills") ∧
      ¬(containsL ['•'] content.data = true) ∧ ¬(containsL ['-'] content.data = true) then
    [skillsFormatSuggestion]
  else [])

/-- The section-specific part of the engine: the source guards it with
`if (section)`, so an absent or empty section yields nothing. -/
def sectionSuggestions (sec : Option String) (content role : String) : List Suggestion :=
  match sec with
  | none => []
  | some s => if s = "" then [] else getSectionSpecificSuggestions s content role

/-- `generateRealTimeSuggestions(content, role, area, section)`.  The checks
run in source order; the role-keyword lookup happens before any suggestion is
pushed, and when it yields an inherited non-array member the `.filter` call
throws a `TypeError`, modelled by the `Except.error` branch. -/
def generateRealTimeSuggestions (content role area : String) (sec : Option String) :
    Except String (List Suggestion) :=
  match getRoleSpecificKeywords role area with
  | .protoMember => .error "roleKeywords.filter is not a function"
  | .arr ks =>
    .ok ((if jsWordCount content < 200 then [wordCountSuggestion sec] else []) ++
      (if ¬(hasQuantifiedAchievements content.data = true) then [quantifySuggestion sec] else []) ++
      (if ¬(hasActionVerbs content.data = true) then [actionVerbsSuggestion sec] else []) ++
      (if 0 < (missingRoleKeywords ks content).length then
        [keywordsSuggestion role (missingRoleKeywords ks content)] else []) ++
      sectionSuggestions sec content role)

/-- The id strings of a suggestion list. -/
def idsOf (l : List Suggestion) : List String := l.map Suggestion.id

/-- Occurrence count of a string in a list of strings. -/
def countStr (a : String) : List String → Nat
  | [] => 0
  | b :: t => (if b = a then 1 else 0) + countStr a t

/-- The suggestion list of a non-throwing engine run (empty on a throw);
used only to state witnesses at concrete inputs. -/
def okSuggestions (e : Except String (List Suggestion)) : List Suggestion :=
  match e with
  | .ok l => l
  | .error _ => []

/-! ### The AI gateway (improve and analyze routes) -/

/-- JS truthiness of an optional string field destructured from the request
body: falsy when absent or the empty string. -/
def jsTruthy : Option String → Bool
  | none => false
  | some s => !(s == "")

/-- Template-literal interpolation of a possibly-undefined value:
`${x}` renders `undefined` as the string "undefined". -/
def jsInterp : Option String → String
  | none => "undefined"
  | some s => s

/-- `x || 'fallback'` inside a template literal. -/
def jsOrStr (v : Option String) (fallback : String) : String :=
  if jsTruthy v then jsInterp v else fallback

/-- Strip the JS whitespace class from both ends (`String.prototype.trim`). -/
def trimJs (s : List Char) : List Char :=
  ((s.dropWhile isJsWs).reverse.dropWhile isJsWs).reverse

/-- Fuelled worker for `removeAllL`: remove the non-overlapping occurrences of
`pat`, scanning left to right, as `String.prototype.replace` with a global
regex of a literal pattern and an empty replacement.  The fuel is the input
length, which bounds the number of steps. -/
def removeAllGo (pat : List Char) : Nat → List Char → List Char
  | _, [] => []
  | 0, s => s
  | Nat.succ fuel, c :: t =>
    if prefixOfL pat (c :: t) && !(pat.isEmpty) then
      removeAllGo pat fuel (List.drop pat.length (c :: t))
    else c :: removeAllGo pat fuel t

/-- Remove every occurrence of `pat` (e.g. `.replace(/```/g, '')`). -/
def removeAllL (pat s : List Char) : List Char := removeAllGo pat s.length s

/-- `.replace(/^(text|resume|content):\s*/i, '')`: drop a case-insensitive
leading label and the whitespace after its colon. -/
def stripLeadingLabel (s : List Char) : List Char :=
  if prefixOfL "text:".data (lowerL s) then (s.drop 5).dropWhile isJsWs
  else if prefixOfL "resume:".data (lowerL s) then (s.drop 7).dropWhile isJsWs
  else if prefixOfL "content:".data (lowerL s) then (s.drop 8).dropWhile isJsWs
  else s

/-- Normalization of the improve route's raw model output:
`response.text.trim()`, then remove code fences, then strip a leading label
line, then trim again. -/
def cleanupImproved (t : String) : String :=
  ⟨trimJs (stripLeadingLabel (removeAllL "```".data (trimJs t.data)))⟩

/-- Outcome of the single external generative-AI call: either a response whose
`.text` may be absent, or a thrown error with a message. -/
inductive GenOutcome
  | ok (text : Option String)
  | threw (msg : String)

/-- Result of the improve route after the authentication guard:
`invalidRequest` is the 400 validation response, `aiUnavailable` the 503
response of the catch block, `success` the 200 payload. -/
inductive ImproveResult
  | invalidRequest
  | aiUnavailable (details : String)
  | success (improvedContent message : String)
deriving DecidableEq, Repr

/-- The auto-improve prompt template literal. -/
def autoImprovePrompt (resumeContent : String) (targetRole targetArea : Option String) : String :=
  "You are a professional resume expert. Improve this resume for a " ++
  jsInterp targetRole ++ " position in " ++ jsOrStr targetArea "general" ++
  " field.\n\nINSTRUCTIONS:\n1. Enhance the formatting and structure\n2. Make the language more professional and impactful\n3. Optimize for ATS (Applicant Tracking Systems)\n4. Add relevant keywords for the target role\n5. Improve bullet points to be more action-oriented\n6. Ensure consistent formatting throughout\n7. Keep all the original information but present it better\n\nOriginal Resume:\n" ++
  resumeContent ++
  "\n\nReturn the improved resume content directly (no JSON, no explanations, just the improved resume text)."

/-- The chat-command prompt template literal. -/
def chatCommandPrompt (resumeContent : String) (targetRole targetArea command : Option String) : String :=
  "You are a professional resume expert. The user wants you to modify their resume based on this request: \"" ++
  jsInterp command ++ "\"\n\nCurrent resume for " ++ jsInterp targetRole ++
  " in " ++ jsOrStr targetArea "general" ++ ":\n" ++ resumeContent ++
  "\n\nUser\x27s request: " ++ jsInterp command ++
  "\n\nApply the requested changes to the resume and return the modified resume content directly (no JSON, no explanations, just the updated resume text)."

/-- The improve route's success message for the action taken. -/
def improveMessage (action : String) (command : Option String) : String :=
  if action = "auto-improve" then
    "✅ Your resume has been automatically improved! Key enhancements: better formatting, professional language, ATS optimization, and keyword enhancement."
  else if action = "chat-command" then
    "✅ Applied your request: \"" ++ jsInterp command ++ "\". Your resume has been updated!"
  else ""

/-- The improve-resume `POST` handler after the session guard, parameterized by
the external call `gen`.  The second component records the prompt of every
external call made, so a caller can verify the call count.  Validation
(`!resumeContent || !action`) runs before any external call; an action other
than the two known ones leaves the prompt as the empty string. -/
def improvePOST (resumeContent targetRole targetArea action command : Option String)
    (gen : String → GenOutcome) : ImproveResult × List String :=
  if !(jsTruthy resumeContent) || !(jsTruthy action) then
    (.invalidRequest, [])
  else
    let rc := jsInterp resumeContent
    let act := jsInterp action
    let prompt :=
      if act = "auto-improve" then autoImprovePrompt rc targetRole targetArea
      else if act = "chat-command" then chatCommandPrompt rc targetRole targetArea command
      else ""
    match gen prompt with
    | .threw msg => (.aiUnavailable msg, [prompt])
    | .ok none => (.aiUnavailable "No response text received from Gemini", [prompt])
    | .ok (some t) =>
      if t = "" then (.aiUnavailable "No response text received from Gemini", [prompt])
      else (.success (cleanupImproved t) (improveMessage act command), [prompt])

/-! ### JSON values and a model of `JSON.parse` -/

/-- A parsed JSON value.  Numeric literals are kept as their source lexemes,
which avoids introducing floating-point semantics; for the inputs of interest
the lexeme is the integer literal itself. -/
inductive JsonValue
  | null
  | bool (b : Bool)
  | num (lexeme : String)
  | str (s : String)
  | arr (elems : List JsonValue)
  | obj (fields : List (String × JsonValue))

/-- The opening-brace character (written numerically). -/
def lbrace : Char := Char.ofNat 123

/-- The closing-brace character (written numerically). -/
def rbrace : Char := Char.ofNat 125

/-- JSON insignificant whitespace. -/
def isJsonWs (c : Char) : Bool :=
  c.toNat = 32 || c.toNat = 9 || c.toNat = 10 || c.toNat = 13

/-- Drop JSON whitespace. -/
def skipWsJ (s : List Char) : List Char := s.dropWhile isJsonWs

/-- Hex digit value. -/
def hexVal (c : Char) : Option Nat :=
  if 48 ≤ c.toNat && c.toNat ≤ 57 then some (c.toNat - 48)
  else if 97 ≤ c.toNat && c.toNat ≤ 102 then some (c.toNat - 87)
  else if 65 ≤ c.toNat && c.toNat ≤ 70 then some (c.toNat - 55)
  else none

/-- Parse the body of a JSON string after the opening quote, returning the
decoded characters and the rest after the closing quote.  Escapes are decoded;
a `\uXXXX` escape becomes the scalar of its code (surrogate halves are not
recombined, which no input of interest uses). -/
def parseJString : Nat → List Char → Option (List Char × List Char)
  | 0, _ => none
  | _, [] => none
  | Nat.succ fuel, c :: t =>
    if c = '"' then some ([], t)
    else if c = '\\' then
      match t with
      | [] => none
      | e :: t2 =>
        if e = '"' ∨ e = '\\' ∨ e = '/' then
          (parseJString fuel t2).map (fun r => (e :: r.1, r.2))
        else if e = 'b' then (parseJString fuel t2).map (fun r => (Char.ofNat 8 :: r.1, r.2))
        else if e = 'f' then (parseJString fuel t2).map (fun r => (Char.ofNat 12 :: r.1, r.2))
        else if e = 'n' then (parseJString fuel t2).map (fun r => ('\n' :: r.1, r.2))
        else if e = 'r' then (parseJString fuel t2).map (fun r => ('\r' :: r.1, r.2))
        else if e = 't' then (parseJString fuel t2).map (fun r => ('\t' :: r.1, r.2))
        else if e = 'u' then
          match t2 with
          | h1 :: h2 :: h3 :: h4 :: t3 =>
            match hexVal h1, hexVal h2, hexVal h3, hexVal h4 with
            | some a, some b, some cc, some d =>
              (parseJString fuel t3).map
                (fun r => (Char.ofNat (a * 4096 + b * 256 + cc * 16 + d) :: r.1, r.2))
            | _, _, _, _ => none
          | _ => none
        else none
    else (parseJString fuel t).map (fun r => (c :: r.1, r.2))

/-- Lex the digits of a JSON integer part after its first digit. -/
def takeDigits (s : List Char) : List Char × List Char :=
  (s.takeWhile isDigitCh, s.dropWhile isDigitCh)

/-- Lex a JSON number starting at the current position, returning its lexeme
and the rest.  The grammar is JSON's: optional minus, `0` or a nonzero-led
digit run, optional fraction, optional exponent. -/
def parseJNumber (s : List Char) : Option (List Char × List Char) :=
  let core : List Char → Option (List Char × List Char) := fun u =>
    match u with
    | [] => none
    | c :: t =>
      if c = '0' then some ([c], t)
      else if isDigitCh c then
        let r := takeDigits t
        some (c :: r.1, r.2)
      else none
  let afterInt : List Char × List Char → Option (List Char × List Char) := fun r =>
    match r.2 with
    | '.' :: t =>
      match t with
      | d :: _ =>
        if isDigitCh d then
          let f := takeDigits t
          some (r.1 ++ '.' :: f.1, f.2)
        else none
      | [] => none
    | _ => some r
  let afterFrac : List Char × List Char → Option (List Char × List Char) := fun r =>
    match r.2 with
    | e :: t =>
      if e = 'e' ∨ e = 'E' then
        match t with
        | sgn :: t2 =>
          if sgn = '+' ∨ sgn = '-' then
            match t2 with
            | d :: _ =>
              if isDigitCh d then
                let x := takeDigits t2
                some (r.1 ++ e :: sgn :: x.1, x.2)
              else none
            | [] => none
          else if isDigitCh sgn then
            let x := takeDigits t
            some (r.1 ++ e :: x.1, x.2)
          else none
        | [] => none
      else some r
    | [] => some r
  match s with
  | '-' :: t => (core t).bind (fun r => (afterInt ('-' :: r.1, r.2)).bind afterFrac)
  | _ => (core s).bind (fun r => (afterInt r).bind afterFrac)

mutual

/-- Parse one JSON value (leading whitespace allowed), returning it and the
rest of the input. -/
def parseJValue : Nat → List Char → Option (JsonValue × List Char)
  | 0, _ => none
  | Nat.succ fuel, s0 =>
    match skipWsJ s0 with
    | [] => none
    | c :: t =>
      if c = '"' then
        (parseJString fuel t).map (fun r => (.str ⟨r.1⟩, r.2))
      else if c = lbrace then
        parseJMembers fuel (skipWsJ t) true
      else if c = '[' then
        parseJElements fuel (skipWsJ t) true
      else if prefixOfL "true".data (c :: t) then
        some (.bool true, (c :: t).drop 4)
      else if prefixOfL "false".data (c :: t) then
        some (.bool false, (c :: t).drop 5)
      else if prefixOfL "null".data (c :: t) then
        some (.null, (c :: t).drop 4)
      else
        (parseJNumber (c :: t)).map (fun r => (.num ⟨r.1⟩, r.2))

/-- Parse the members of an object after the opening brace (whitespace already
skipped); `first` is true before any member has been read. -/
def parseJMembers : Nat → List Char → Bool → Option (JsonValue × List Char)
  | 0, _, _ => none
  | Nat.succ fuel, s, first =>
    match s with
    | [] => none
    | c :: t =>
      if c = rbrace ∧ first then some (.obj [], t)
      else if c = '"' then
        match parseJString fuel t with
        | none => none
        | some (key, rest1) =>
          match skipWsJ rest1 with
          | ':' :: rest2 =>
            match parseJValue fuel rest2 with
            | none => none
            | some (v, rest3) =>
              match skipWsJ rest3 with
              | ',' :: rest4 =>
                match parseJMembers fuel (skipWsJ rest4) false with
                | some (.obj fs, rest5) => some (.obj ((⟨key⟩, v) :: fs), rest5)
                | _ => none
              | d :: rest4 =>
                if d = rbrace then some (.obj [(⟨key⟩, v)], rest4) else none
              | [] => none
          | _ => none
      else none

/-- Parse the elements of an array after the opening bracket (whitespace
already skipped); `first` is true before any element has been read. -/
def parseJElements : Nat → List Char → Bool → Option (JsonValue × List Char)
  | 0, _, _ => none
  | Nat.succ fuel, s, first =>
    match s with
    | [] => none
    | ']' :: t =>
      if first then some (.arr [], t) else parseJElementsCont fuel (']' :: t)
    | s' => parseJElementsCont fuel s'

/-- Shared continuation of `parseJElements`: parse one element then a comma or
the closing bracket. -/
def parseJElementsCont : Nat → List Char → Option (JsonValue × List Char)
  | 0, _ => none
  | Nat.succ fuel, s =>
    match parseJValue fuel s with
    | none => none
    | some (v, rest1) =>
      match skipWsJ rest1 with
      | ',' :: rest2 =>
        match parseJElements fuel (skipWsJ rest2) false with
        | some (.arr vs, rest3) => some (.arr (v :: vs), rest3)
        | _ => none
      | ']' :: rest2 => some (.arr [v], rest2)
      | _ => none

end

/-- `JSON.parse`: parse one value and require only whitespace after it.  The
fuel is generous; every recursive call strictly consumes fuel and a successful
parse consumes at least one character per few calls. -/
def jsonParse (s : List Char) : Option JsonValue :=
  match parseJValue (8 * s.length + 16) s with
  | some (v, rest) => if skipWsJ rest = [] then some v else none
  | none => none

/-- The details message the model attaches to a `JSON.parse` failure.  The
engine-generated `SyntaxError` text varies with the JS engine and input; it is
modelled by one representative message.  No theorem below depends on its exact
wording, only on the fact that it is an arbitrary string travelling through
the same `details` channel as an external-failure message. -/
def jsonParseErrorMessage : String := "Unexpected token in JSON"

/-- Result of the analyze route after the authentication guard:
`invalidRequest` is the 400 validation response, `aiAnalysisFailed` the single
503 response shape of the catch block (used for external-call failure, missing
response text, and `JSON.parse` failure alike), `success` the 200 payload. -/
inductive AnalyzeResult
  | invalidRequest
  | aiAnalysisFailed (details : String)
  | success (analysis : JsonValue)

/-- The analyze prompt template literal (literal braces written as escapes). -/
def analyzePrompt (resumeContent : String) (targetRole : String) (targetArea : Option String) : String :=
  "Analyze this resume for a " ++ targetRole ++ " position in " ++
  jsOrStr targetArea "general" ++
  ".\n\nIMPORTANT: Return ONLY a valid JSON object with these exact fields:\n- overallScore: number (0-100)\n- strengths: array of strings\n- improvements: array of objects with \x7bcategory, issue, suggestion, priority, section\x7d\n- missingKeywords: array of strings\n- enhancementAreas: array of strings\n- contentSuggestions: array of objects with \x7bsection, currentText, suggestedText, reason\x7d\n\nResume Content:\n" ++
  resumeContent ++ "\n\nReturn only the JSON, no other text."

/-- The fence-stripping step of the analyze route: only when the trimmed
response starts with "```json" are the "```json" and then the "```"
occurrences removed. -/
def stripJsonFences (s : List Char) : List Char :=
  if prefixOfL "```json".data s then
    removeAllL "```".data (removeAllL "```json".data s)
  else s

/-- The analyze `POST` handler after the session guard, parameterized by the
external call `gen`; the second component records the prompt of every external
call made.  Validation (`!resumeContent || !targetRole`) runs before any
external call. -/
def analyzePOST (resumeContent targetRole targetArea : Option String)
    (gen : String → GenOutcome) : AnalyzeResult × List String :=
  if !(jsTruthy resumeContent) || !(jsTruthy targetRole) then
    (.invalidRequest, [])
  else
    let prompt := analyzePrompt (jsInterp resumeContent) (jsInterp targetRole) targetArea
    match gen prompt with
    | .threw msg => (.aiAnalysisFailed msg, [prompt])
    | .ok none => (.aiAnalysisFailed "No response text received from Gemini", [prompt])
    | .ok (some t) =>
      if t = "" then (.aiAnalysisFailed "No response text received from Gemini", [prompt])
      else
        match jsonParse (stripJsonFences (trimJs t.data)) with
        | some v => (.success v, [prompt])
        | none => (.aiAnalysisFailed jsonParseErrorMessage, [prompt])

/-- Field lookup in a parsed JSON object. -/
def lookupField (name : String) : JsonValue → Option JsonValue
  | .obj fs => fs.lookup name
  | _ => none

/-- The analysis payload of a successful analyze result. -/
def analysisOf : AnalyzeResult → Option JsonValue
  | .success v => some v
  | _ => none

/-! ### Concrete inputs used by counterexamples and witnesses -/

/-- An external call returning an English sentence instead of JSON. -/
def genBadJsonC : String → GenOutcome := fun _ => .ok (some "This resume looks great overall!")

/-- An external call that throws; its message is chosen equal to the modelled
parse-failure details to exhibit the two failure modes as indistinguishable. -/
def genThrowC : String → GenOutcome := fun _ => .threw jsonParseErrorMessage

/-- A JSON object wrapped in json code fences, as in the spec's test vector
(braces written as escapes). -/
def fencedPayload : String :=
  "```json\n\x7b\"overallScore\": 80, \"strengths\": [\"Concise\"]\x7d\n```"

/-- An external call returning the fenced JSON payload. -/
def genFencedC : String → GenOutcome := fun _ => .ok (some fencedPayload)

/-- An external call returning a fixed plain text. -/
def genConstC : String → GenOutcome := fun _ => .ok (some "ok")

/-- An external call returning a fixed improved-resume text. -/
def genImproveC : String → GenOutcome := fun _ => .ok (some "Better resume")

/-- The astral-plane character U+1D11E (one character, two UTF-16 units). -/
def astralChar : Char := Char.ofNat 119070

/-- A resume text of 199 whitespace-delimited tokens preceded by one space:
its JS split length is 200. -/
def c2text : String := ⟨' ' :: List.intercalate [' '] (List.replicate 199 ['a'])⟩

/-- A resume text of 60 astral characters: 60 characters, 120 UTF-16 units. -/
def c5text : String := ⟨List.replicate 60 astralChar⟩

example : jsWordCount "" = 1 := by decide
example : jsWordCount " a b" = 3 := by decide
example : specWhitespaceTokenCount " a b" = 2 := by decide
example : hasQuantifiedAchievements "grew 40%".data = true := by decide
example : hasActionVerbs "killed it".data = true := by decide
example : getRoleSpecificKeywords "Constructor" "" = .protoMember := by decide
example : getRoleSpecificKeywords "toString" "" = .arr defaultKeywordProfile := by decide
example :
    Except.map idsOf (generateRealTimeSuggestions "" "x" "" none) =
      .ok ["word-count", "quantify", "action-verbs", "keywords"] := by rfl
example : cleanupImproved "```text: hello```  " = "hello" := by rfl

/-! ### Helper lemmas -/

theorem idsOf_append (a b : List Suggestion) : idsOf (a ++ b) = idsOf a ++ idsOf b := by
  simp [idsOf]

theorem countStr_append (a : String) (l1 l2 : List String) :
    countStr a (l1 ++ l2) = countStr a l1 + countStr a l2 := by
  induction l1 with
  | nil => simp [countStr]
  | cons b t ih => simp [countStr, ih]; omega

theorem data_append_helper (a b : String) : (a ++ b).data = a.data ++ b.data := by
  cases a
  cases b
  rfl

theorem mem_if_singleton {c : Prop} [Decidable c] {x s : Suggestion}
    (h : s ∈ (if c then [x] else [])) : s = x ∧ c := by
  by_cases hc : c <;> simp [hc] at h <;> simp [h, hc]

/-! ### Claim C1 -/

/-- Claim C1 (code bug): the Suggestion Engine is not total.  For the role
string "constructor" the lower-cased key hits the inherited
`Object.prototype.constructor` member of the keyword-table object literal, a
truthy non-array, and the subsequent `.filter` call throws a `TypeError`
instead of returning a suggestion list. -/
theorem suggestion_engine_throws_on_constructor_role :
    generateRealTimeSuggestions "Led a team of 5" "constructor" "" none =
      .error "roleKeywords.filter is not a function" := by
  rfl

/-! ### Claim C2 -/

/-- Claim C2 counterexample: a text of 199 whitespace-delimited tokens with a
leading space has a JS split length of 200, so the engine emits no
"word-count" suggestion although the token count is below 200 — the claim as
stated (in terms of token count) is false at this input. -/
theorem word_count_missed_with_leading_whitespace :
    specWhitespaceTokenCount c2text = 199 ∧ jsWordCount c2text = 200 ∧
    Except.map idsOf (generateRealTimeSuggestions c2text "x" "" none) =
      .ok ["quantify", "action-verbs", "keywords"] := by
  refine ⟨by rfl, by rfl, by rfl⟩

/-- Claim C2 amended: in every non-throwing run, the output contains exactly
one "word-count" suggestion when `content.split(/\s+/).length` — the token
count plus one extra empty segment for leading and for trailing whitespace,
and `1` for the empty string — is below 200, and none otherwise. -/
theorem word_count_suggestion_iff_split_length_lt_200
    (content role area : String) (sec : Option String) (l : List Suggestion)
    (h : generateRealTimeSuggestions content role area sec = .ok l) :
    countStr "word-count" (idsOf l) = (if jsWordCount content < 200 then 1 else 0) := by
  cases hk : getRoleSpecificKeywords role area with
  | protoMember =>
    simp only [generateRealTimeSuggestions, hk] at h
    exact Except.noConfusion h
  | arr ks =>
    simp only [generateRealTimeSuggestions, hk] at h
    injection h with h
    subst h
    cases sec with
    | none =>
      simp only [sectionSuggestions, idsOf_append, countStr_append, apply_ite idsOf,
        apply_ite (countStr "word-count"), idsOf, List.map,
        wordCountSuggestion, quantifySuggestion, actionVerbsSuggestion,
        keywordsSuggestion, countStr]
      split_ifs <;>
        simp_all [countStr, List.map_append, List.map_cons, List.map_nil]
    | some s =>
      simp only [sectionSuggestions, getSectionSpecificSuggestions, idsOf_append, countStr_append,
        apply_ite idsOf, apply_ite (countStr "word-count"), idsOf, List.map,
        wordCountSuggestion, quantifySuggestion, actionVerbsSuggestion,
        keywordsSuggestion, summaryExpandSuggestion, skillsFormatSuggestion, countStr]
      split_ifs <;>
        simp_all [countStr, List.map_append, List.map_cons, List.map_nil]

/-- Claim C2 witness: at the two-token text "hi" the amended theorem yields
exactly one "word-count" suggestion. -/
theorem word_count_suggestion_iff_split_length_lt_200_witness :
    countStr "word-count"
      (idsOf (okSuggestions (generateRealTimeSuggestions "hi" "x" "" none))) = 1 := by
  have h := word_count_suggestion_iff_split_length_lt_200 "hi" "x" "" none
    (okSuggestions (generateRealTimeSuggestions "hi" "x" "" none)) rfl
  exact h.trans (by decide)

/-! ### Claim C3 -/

/-- Claim C3: in every non-throwing run, the output contains exactly one
"quantify" suggestion when the text matches none of the patterns
digit-then-percent, digit-then-plus, dollar-then-digit, or the words
increased/improved/reduced case-insensitively, and none otherwise. -/
theorem quantify_suggestion_iff_no_quantified_pattern
    (content role area : String) (sec : Option String) (l : List Suggestion)
    (h : generateRealTimeSuggestions content role area sec = .ok l) :
    countStr "quantify" (idsOf l) =
      (if hasQuantifiedAchievements content.data = true then 0 else 1) := by
  cases hk : getRoleSpecificKeywords role area with
  | protoMember =>
    simp only [generateRealTimeSuggestions, hk] at h
    exact Except.noConfusion h
  | arr ks =>
    simp only [generateRealTimeSuggestions, hk] at h
    injection h with h
    subst h
    cases sec with
    | none =>
      simp only [sectionSuggestions, idsOf_append, countStr_append, apply_ite idsOf,
        apply_ite (countStr "quantify"), idsOf, List.map,
        wordCountSuggestion, quantifySuggestion, actionVerbsSuggestion,
        keywordsSuggestion, countStr]
      split_ifs <;>
        simp_all [countStr, List.map_append, List.map_cons, List.map_nil]
    | some s =>
      simp only [sectionSuggestions, getSectionSpecificSuggestions, idsOf_append, countStr_append,
        apply_ite idsOf, apply_ite (countStr "quantify"), idsOf, List.map,
        wordCountSuggestion, quantifySuggestion, actionVerbsSuggestion,
        keywordsSuggestion, summaryExpandSuggestion, skillsFormatSuggestion, countStr]
      split_ifs <;>
        simp_all [countStr, List.map_append, List.map_cons, List.map_nil]

/-- Claim C3 witness: the word "Improved" counts as a quantified achievement,
so the text "Improved output" gets no "quantify" suggestion. -/
theorem quantify_suggestion_iff_no_quantified_pattern_witness :
    countStr "quantify"
      (idsOf (okSuggestions (generateRealTimeSuggestions "Improved output" "x" "" none))) = 0 := by
  have h := quantify_suggestion_iff_no_quantified_pattern "Improved output" "x" "" none
    (okSuggestions (generateRealTimeSuggestions "Improved output" "x" "" none)) rfl
  exact h.trans (by decide)

/-! ### Claim C4 -/

/-- Claim C4 (code bug): the unknown role "Constructor" does not fall back to
the default keyword profile.  Its lower-cased key "constructor" resolves to
the inherited `Object.prototype.constructor` member, and the `.filter` call on
it throws, so no keyword suggestion (and no suggestion list at all) is
produced. -/
theorem keyword_fallback_fails_on_proto_role :
    generateRealTimeSuggestions "Experienced leader" "Constructor" "" none =
      .error "roleKeywords.filter is not a function" := by
  rfl

/-! ### Claim C5 -/

/-- Claim C5 counterexample: a summary of 60 astral characters is shorter than
100 characters, yet its UTF-16 length is 120, so the engine emits no
"summary-expand" suggestion — the claim as stated (in characters) is false at
this input. -/
theorem summary_expand_missed_on_astral_text :
    c5text.data.length = 60 ∧ utf16Len c5text.data = 120 ∧
    Except.map idsOf (generateRealTimeSuggestions c5text "x" "" (some "summary")) =
      .ok ["word-count", "quantify", "action-verbs", "keywords"] := by
  refine ⟨by rfl, by rfl, by rfl⟩

/-- Claim C5 amended: in every non-throwing run, a "summary-expand" suggestion
appears iff the current section is "summary" or "professional-summary" and the
resume text is shorter than 100 UTF-16 code units (JS `content.length`); when
it appears it has type content, priority high, and its suggestion text
mentions the target role by name. -/
theorem summary_expand_iff_summary_section_and_utf16_lt_100
    (content role area : String) (sec : Option String) (l : List Suggestion)
    (h : generateRealTimeSuggestions content role area sec = .ok l) :
    (("summary-expand" ∈ idsOf l) ↔
      ((sec = some "summary" ∨ sec = some "professional-summary") ∧
        utf16Len content.data < 100)) ∧
    ∀ s ∈ l, s.id = "summary-expand" →
      s.type = .content ∧ s.priority = .high ∧
      ∃ pre post, s.suggestion.data = pre ++ role.data ++ post := by
  cases hk : getRoleSpecificKeywords role area with
  | protoMember =>
    simp only [generateRealTimeSuggestions, hk] at h
    exact Except.noConfusion h
  | arr ks =>
    simp only [generateRealTimeSuggestions, hk] at h
    injection h with h
    subst h
    constructor
    · cases sec with
      | none =>
        simp only [sectionSuggestions, idsOf, List.map_append, List.mem_append,
          apply_ite (List.map Suggestion.id),
          wordCountSuggestion, quantifySuggestion, actionVerbsSuggestion, keywordsSuggestion,
          List.map_cons, List.map_nil]
        split_ifs <;> simp_all
      | some s =>
        simp only [sectionSuggestions, getSectionSpecificSuggestions, idsOf, List.map_append,
          List.mem_append, apply_ite (List.map Suggestion.id),
          wordCountSuggestion, quantifySuggestion, actionVerbsSuggestion, keywordsSuggestion,
          summaryExpandSuggestion, skillsFormatSuggestion, List.map_cons, List.map_nil]
        split_ifs <;> simp_all
    · intro s hs hid
      rcases List.mem_append.mp hs with hs1 | hsec
      · rcases List.mem_append.mp hs1 with hs2 | hkw
        · rcases List.mem_append.mp hs2 with hs3 | hverb
          · rcases List.mem_append.mp hs3 with hwc | hq
            · rcases mem_if_singleton hwc with ⟨rfl, -⟩
              simp [wordCountSuggestion] at hid
            · rcases mem_if_singleton hq with ⟨rfl, -⟩
              simp [quantifySuggestion] at hid
          · rcases mem_if_singleton hverb with ⟨rfl, -⟩
            simp [actionVerbsSuggestion] at hid
        · rcases mem_if_singleton hkw with ⟨rfl, -⟩
          simp [keywordsSuggestion] at hid
      · cases sec with
        | none => simp [sectionSuggestions] at hsec
        | some s2 =>
          simp only [sectionSuggestions] at hsec
          by_cases h2 : s2 = ""
          · simp [h2] at hsec
          · simp only [h2, if_neg, getSectionSpecificSuggestions] at hsec
            rcases List.mem_append.mp hsec with hsum | hsk
            · rcases mem_if_singleton hsum with ⟨rfl, -⟩
              refine ⟨rfl, rfl, "Write a compelling summary mentioning your ".data,
                " experience and key accomplishments.".data, ?_⟩
              simp [summaryExpandSuggestion, data_append_helper]
            · rcases mem_if_singleton hsk with ⟨rfl, -⟩
              simp [skillsFormatSuggestion] at hid

/-- Claim C5 witness: at section "summary" and the 13-unit text
"Short summary" the amended theorem yields a "summary-expand" suggestion. -/
theorem summary_expand_iff_witness :
    "summary-expand" ∈
      idsOf (okSuggestions (generateRealTimeSuggestions "Short summary" "x" "" (some "summary"))) := by
  have h := summary_expand_iff_summary_section_and_utf16_lt_100 "Short summary" "x" ""
    (some "summary")
    (okSuggestions (generateRealTimeSuggestions "Short summary" "x" "" (some "summary"))) rfl
  exact h.1.mpr ⟨Or.inl rfl, by decide⟩

/-! ### Claim C6 -/

/-- Claim C6 counterexample: on the empty resume text the engine returns four
suggestions, not zero or one — the claim's "never more than one suggestion" is
false at this input. -/
theorem empty_resume_yields_four_suggestions :
    Except.map (fun l => l.length) (generateRealTimeSuggestions "" "software engineer" "" none) =
      .ok 4 := by
  rfl

/-- Claim C6 amended: every non-throwing run on the empty resume text returns
the word-count, quantify, action-verbs and keywords suggestions in that order,
followed by the summary or skills section-specific suggestion when the current
section matches — i.e. four or five suggestions, never zero or one. -/
theorem empty_resume_suggestion_ids (role area : String) (sec : Option String)
    (l : List Suggestion)
    (h : generateRealTimeSuggestions "" role area sec = .ok l) :
    idsOf l = ["word-count", "quantify", "action-verbs", "keywords"] ++
      (if sec = some "summary" ∨ sec = some "professional-summary" then ["summary-expand"]
       else if sec = some "skills" ∨ sec = some "technical-skills" then ["skills-format"]
       else []) := by
  cases hk : getRoleSpecificKeywords role area with
  | protoMember =>
    simp only [generateRealTimeSuggestions, hk] at h
    exact Except.noConfusion h
  | arr ks =>
    simp only [generateRealTimeSuggestions, hk] at h
    injection h with h
    subst h
    simp only [getRoleSpecificKeywords] at hk
    split_ifs at hk
    all_goals first
      | exact KeywordLookup.noConfusion hk
      | (injection hk with hk
         subst hk
         cases sec with
         | none => rfl
         | some s =>
           by_cases hs : s = ""
           · subst hs; rfl
           · by_cases h1 : s = "summary"
             · subst h1; rfl
             · by_cases h2 : s = "professional-summary"
               · subst h2; rfl
               · by_cases h3 : s = "skills"
                 · subst h3; rfl
                 · by_cases h4 : s = "technical-skills"
                   · subst h4; rfl
                   · have hsec : sectionSuggestions (some s) "" role = [] := by
                       simp [sectionSuggestions, getSectionSpecificSuggestions, hs, h1, h2, h3, h4]
                     rw [hsec]
                     have hrhs :
                         (if (some s = some "summary" ∨ some s = some "professional-summary") then
                           ["summary-expand"]
                         else if (some s = some "skills" ∨ some s = some "technical-skills") then
                           ["skills-format"]
                         else ([] : List String)) = [] := by
                       simp [h1, h2, h3, h4]
                     rw [hrhs]
                     rfl)

/-- Claim C6 witness: on empty text with the "skills" section the amended
theorem gives the four content suggestions plus "skills-format". -/
theorem empty_resume_suggestion_ids_witness :
    idsOf (okSuggestions (generateRealTimeSuggestions "" "software engineer" "" (some "skills"))) =
      ["word-count", "quantify", "action-verbs", "keywords", "skills-format"] := by
  have h := empty_resume_suggestion_ids "software engineer" "" (some "skills")
    (okSuggestions (generateRealTimeSuggestions "" "software engineer" "" (some "skills"))) rfl
  exact h.trans (by decide)

/-! ### Claim C7 -/

/-- Claim C7: both gateway operations validate before any external call — the
improve operation with falsy resume text or falsy action, and the analyze
operation with falsy resume text or falsy target role, each return the 400
validation error with an empty external-call log. -/
theorem gateway_validation_rejects_missing_inputs :
    (∀ rc tr ta act cmd gen, (jsTruthy rc = false ∨ jsTruthy act = false) →
      improvePOST rc tr ta act cmd gen = (.invalidRequest, [])) ∧
    (∀ rc tr ta gen, (jsTruthy rc = false ∨ jsTruthy tr = false) →
      analyzePOST rc tr ta gen = (.invalidRequest, [])) := by
  refine ⟨fun rc tr ta act cmd gen h => ?_, fun rc tr ta gen h => ?_⟩ <;>
    rcases h with h | h <;> simp [improvePOST, analyzePOST, h]

/-- Claim C7 witness: empty resume text on improve and missing target role on
analyze are rejected with zero external calls. -/
theorem gateway_validation_rejects_missing_inputs_witness :
    improvePOST (some "") (some "r") none (some "auto-improve") none genConstC =
      (.invalidRequest, []) ∧
    analyzePOST (some "resume") none none genConstC = (.invalidRequest, []) :=
  ⟨gateway_validation_rejects_missing_inputs.1 (some "") (some "r") none (some "auto-improve")
    none genConstC (Or.inl rfl),
   gateway_validation_rejects_missing_inputs.2 (some "resume") none none genConstC (Or.inr rfl)⟩

/-! ### Claim C8 -/

/-- Claim C8 counterexample: the analyze operation's response to a successful
external call with a non-JSON payload is byte-for-byte the same 503
"AI analysis failed" response produced for an external-call failure whose
message happens to match — there is no structurally distinct
malformed-response error kind in the code. -/
theorem malformed_json_error_equals_unavailable_error :
    analyzePOST (some "resume text") (some "engineer") none genBadJsonC =
      analyzePOST (some "resume text") (some "engineer") none genThrowC := by
  rfl

/-- Claim C8 amended: when the analyze operation's external call succeeds but
its (trimmed, fence-stripped) payload does not parse as JSON, the operation
fails through the same single 503 "AI analysis failed" error constructor used
for external-call failure, carrying the parse error's message as details; the
malformed payload is never coerced into a success result. -/
theorem malformed_json_fails_with_shared_analysis_error
    (rc tr : String) (ta : Option String) (gen : String → GenOutcome) (t : String)
    (hrc : rc ≠ "") (htr : tr ≠ "")
    (hg : gen (analyzePrompt rc tr ta) = .ok (some t)) (ht : t ≠ "")
    (hp : jsonParse (stripJsonFences (trimJs t.data)) = none) :
    analyzePOST (some rc) (some tr) ta gen =
      (.aiAnalysisFailed jsonParseErrorMessage, [analyzePrompt rc tr ta]) := by
  simp [analyzePOST, jsTruthy, jsInterp, hrc, htr, hg, ht, hp]

/-- Claim C8 witness: a plain-English payload fails with the shared 503
analysis error. -/
theorem malformed_json_fails_with_shared_analysis_error_witness :
    analyzePOST (some "resume text") (some "engineer") none genBadJsonC =
      (.aiAnalysisFailed jsonParseErrorMessage, [analyzePrompt "resume text" "engineer" none]) :=
  malformed_json_fails_with_shared_analysis_error "resume text" "engineer" none genBadJsonC
    "This resume looks great overall!" (by decide) (by decide) (by rfl) (by decide) (by rfl)

/-! ### Claim C9 -/

/-- Claim C9: an external response consisting of a JSON object wrapped in json
code fences parses successfully after fence stripping, and the resulting
analysis has overallScore 80. -/
theorem fenced_json_parses_with_overall_score_80 :
    (analyzePOST (some "resume") (some "engineer") (some "tech") genFencedC).1 =
      .success (JsonValue.obj [("overallScore", .num "80"), ("strengths", .arr [.str "Concise"])]) ∧
    ((analysisOf (analyzePOST (some "resume") (some "engineer") (some "tech") genFencedC).1).bind
      (lookupField "overallScore")) = some (.num "80") := by
  exact ⟨rfl, rfl⟩

/-! ### Claim C10 -/

/-- Claim C10: an improve request with non-empty resume text and a present
action that is neither "auto-improve" nor "chat-command" passes validation,
makes exactly one external call whose prompt is the empty string, and — when
that call yields non-empty text — returns success with the cleaned text and an
empty status message. -/
theorem unknown_action_calls_with_empty_prompt
    (r a : String) (tr ta cmd : Option String) (gen : String → GenOutcome)
    (hr : r ≠ "") (ha : a ≠ "") (h1 : a ≠ "auto-improve") (h2 : a ≠ "chat-command") :
    ((improvePOST (some r) tr ta (some a) cmd gen).1 ≠ .invalidRequest ∧
      (improvePOST (some r) tr ta (some a) cmd gen).2 = [""]) ∧
    (∀ t, gen "" = .ok (some t) → t ≠ "" →
      improvePOST (some r) tr ta (some a) cmd gen = (.success (cleanupImproved t) "", [""])) := by
  constructor
  · cases hg : gen "" with
    | threw m =>
      constructor <;> simp [improvePOST, jsTruthy, jsInterp, hr, ha, h1, h2, hg, improveMessage]
    | ok t0 =>
      cases t0 with
      | none =>
        constructor <;> simp [improvePOST, jsTruthy, jsInterp, hr, ha, h1, h2, hg]
      | some t =>
        by_cases ht : t = "" <;> constructor <;>
          simp [improvePOST, jsTruthy, jsInterp, hr, ha, h1, h2, hg, ht, improveMessage]
  · intro t hg ht
    simp [improvePOST, jsTruthy, jsInterp, hr, ha, h1, h2, hg, ht, improveMessage]

/-- Claim C10 witness: the unrecognized action "polish" makes one external
call with the empty prompt and succeeds with an empty message. -/
theorem unknown_action_calls_with_empty_prompt_witness :
    improvePOST (some "My resume") none none (some "polish") none genImproveC =
      (.success (cleanupImproved "Better resume") "", [""]) :=
  (unknown_action_calls_with_empty_prompt "My resume" "polish" none none none genImproveC
    (by decide) (by decide) (by decide) (by decide)).2 "Better resume" rfl (by decide)
